import Mathlib

/-!
A formal model of the core of the AMI software instrument (MIDI message
decoding and filtering, the render-graph command protocol, per-node note
transposition, and the drum-machine beat scheduler), together with proofs
of the behavioural properties the documentation states about it.

Conventions of the embedding:
* Rust `u8`/`u16`/`usize` values are modelled as `Nat`; `i8`/`i16` as `Int`
  with explicit saturation / truncation where the code performs it.
* Rust `f32` time and tempo values are idealized as exact rationals `ℚ`;
  no property proved here depends on rounding.
* A Rust operation that can panic (out-of-bounds `Vec` indexing, `todo!()`)
  is modelled in `Option`, `none` marking the panic.
* `Vec<T>` is `List T`; `HashMap<String, _>` is an association list with
  `List.lookup`.
-/

namespace AMI

/-- The 128-variant controller enum from `src/midi/msg.rs` (`ControlChangeKind`). -/
inductive ControlChangeKind where
  | BankSelectMsb
  | ModulationWheelMsb
  | BreathControllerMsb
  | Undefined0Msb
  | FootControllerMsb
  | PortamentoTimeMsb
  | DataEntryMsb
  | ChannelVolumeMsb
  | BalanceMsb
  | Undefined1Msb
  | PanMsb
  | ExpressionControllerMsb
  | EffectControl1Msb
  | EffectControl2Msb
  | Undefined2Msb
  | Undefined3Msb
  | GeneralPurposeController1Msb
  | GeneralPurposeController2Msb
  | GeneralPurposeController3Msb
  | GeneralPurposeController4Msb
  | Undefined4Msb
  | Undefined5Msb
  | Undefined6Msb
  | Undefined7Msb
  | Undefined8Msb
  | Undefined9Msb
  | Undefined10Msb
  | Undefined11Msb
  | Undefined12Msb
  | Undefined13Msb
  | Undefined14Msb
  | Undefined15Msb
  | BankSelectLsb
  | ModulationWheelLsb
  | BreathControllerLsb
  | Undefined0Lsb
  | FootControllerLsb
  | PortamentoTimeLsb
  | DataEntryLsb
  | ChannelVolumeLsb
  | BalanceLsb
  | Undefined1Lsb
  | PanLsb
  | ExpressionControllerLsb
  | EffectControl1Lsb
  | EffectControl2Lsb
  | Undefined2Lsb
  | Undefined3Lsb
  | GeneralPurposeController1Lsb
  | GeneralPurposeController2Lsb
  | GeneralPurposeController3Lsb
  | GeneralPurposeController4Lsb
  | Undefined4Lsb
  | Undefined5Lsb
  | Undefined6Lsb
  | Undefined7Lsb
  | Undefined8Lsb
  | Undefined9Lsb
  | Undefined10Lsb
  | Undefined11Lsb
  | Undefined12Lsb
  | Undefined13Lsb
  | Undefined14Lsb
  | Undefined15Lsb
  | DamperPedal
  | Portamento
  | Sostenuto
  | SoftPedal
  | LegatoFootswitch
  | Hold2
  | SoundController1
  | SoundController2
  | SoundController3
  | SoundController4
  | SoundController5
  | SoundController6
  | SoundController7
  | SoundController8
  | SoundController9
  | SoundController10
  | GeneralPurposeController5
  | GeneralPurposeController6
  | GeneralPurposeController7
  | GeneralPurposeController8
  | PortamentoControl
  | Undefined16
  | Undefined17
  | Undefined18
  | HighResolutionVelocityPrefix
  | Undefined19
  | Undefined20
  | Effects1Depth
  | Effects2Depth
  | Effects3Depth
  | Effects4Depth
  | Effects5Depth
  | DataIncrement
  | DataDecrement
  | NonRegisteredParameterNumberLsb
  | NonRegisteredParameterNumberMsb
  | RegisteredParameterNumberLsb
  | RegisteredParameterNumberMsb
  | Undefined21
  | Undefined22
  | Undefined23
  | Undefined24
  | Undefined25
  | Undefined26
  | Undefined27
  | Undefined28
  | Undefined29
  | Undefined30
  | Undefined31
  | Undefined32
  | Undefined33
  | Undefined34
  | Undefined35
  | Undefined36
  | Undefined37
  | Undefined38
  | AllSoundsOff
  | ResetAllControllers
  | LocalControl
  | AllNotesOff
  | OmniModeOff
  | OmniModeOn
  | MonoModeOn
  | PolyModeOn
deriving DecidableEq, Repr

/-- `ControlChangeKind::from_number`: controller numbers 0–127 map to the variants in
order; any other number yields `none` (the message is dropped). -/
def ControlChangeKind.from_number (number : Nat) : Option ControlChangeKind :=
  match number with
  | 0 => some .BankSelectMsb
  | 1 => some .ModulationWheelMsb
  | 2 => some .BreathControllerMsb
  | 3 => some .Undefined0Msb
  | 4 => some .FootControllerMsb
  | 5 => some .PortamentoTimeMsb
  | 6 => some .DataEntryMsb
  | 7 => some .ChannelVolumeMsb
  | 8 => some .BalanceMsb
  | 9 => some .Undefined1Msb
  | 10 => some .PanMsb
  | 11 => some .ExpressionControllerMsb
  | 12 => some .EffectControl1Msb
  | 13 => some .EffectControl2Msb
  | 14 => some .Undefined2Msb
  | 15 => some .Undefined3Msb
  | 16 => some .GeneralPurposeController1Msb
  | 17 => some .GeneralPurposeController2Msb
  | 18 => some .GeneralPurposeController3Msb
  | 19 => some .GeneralPurposeController4Msb
  | 20 => some .Undefined4Msb
  | 21 => some .Undefined5Msb
  | 22 => some .Undefined6Msb
  | 23 => some .Undefined7Msb
  | 24 => some .Undefined8Msb
  | 25 => some .Undefined9Msb
  | 26 => some .Undefined10Msb
  | 27 => some .Undefined11Msb
  | 28 => some .Undefined12Msb
  | 29 => some .Undefined13Msb
  | 30 => some .Undefined14Msb
  | 31 => some .Undefined15Msb
  | 32 => some .BankSelectLsb
  | 33 => some .ModulationWheelLsb
  | 34 => some .BreathControllerLsb
  | 35 => some .Undefined0Lsb
  | 36 => some .FootControllerLsb
  | 37 => some .PortamentoTimeLsb
  | 38 => some .DataEntryLsb
  | 39 => some .ChannelVolumeLsb
  | 40 => some .BalanceLsb
  | 41 => some .Undefined1Lsb
  | 42 => some .PanLsb
  | 43 => some .ExpressionControllerLsb
  | 44 => some .EffectControl1Lsb
  | 45 => some .EffectControl2Lsb
  | 46 => some .Undefined2Lsb
  | 47 => some .Undefined3Lsb
  | 48 => some .GeneralPurposeController1Lsb
  | 49 => some .GeneralPurposeController2Lsb
  | 50 => some .GeneralPurposeController3Lsb
  | 51 => some .GeneralPurposeController4Lsb
  | 52 => some .Undefined4Lsb
  | 53 => some .Undefined5Lsb
  | 54 => some .Undefined6Lsb
  | 55 => some .Undefined7Lsb
  | 56 => some .Undefined8Lsb
  | 57 => some .Undefined9Lsb
  | 58 => some .Undefined10Lsb
  | 59 => some .Undefined11Lsb
  | 60 => some .Undefined12Lsb
  | 61 => some .Undefined13Lsb
  | 62 => some .Undefined14Lsb
  | 63 => some .Undefined15Lsb
  | 64 => some .DamperPedal
  | 65 => some .Portamento
  | 66 => some .Sostenuto
  | 67 => some .SoftPedal
  | 68 => some .LegatoFootswitch
  | 69 => some .Hold2
  | 70 => some .SoundController1
  | 71 => some .SoundController2
  | 72 => some .SoundController3
  | 73 => some .SoundController4
  | 74 => some .SoundController5
  | 75 => some .SoundController6
  | 76 => some .SoundController7
  | 77 => some .SoundController8
  | 78 => some .SoundController9
  | 79 => some .SoundController10
  | 80 => some .GeneralPurposeController5
  | 81 => some .GeneralPurposeController6
  | 82 => some .GeneralPurposeController7
  | 83 => some .GeneralPurposeController8
  | 84 => some .PortamentoControl
  | 85 => some .Undefined16
  | 86 => some .Undefined17
  | 87 => some .Undefined18
  | 88 => some .HighResolutionVelocityPrefix
  | 89 => some .Undefined19
  | 90 => some .Undefined20
  | 91 => some .Effects1Depth
  | 92 => some .Effects2Depth
  | 93 => some .Effects3Depth
  | 94 => some .Effects4Depth
  | 95 => some .Effects5Depth
  | 96 => some .DataIncrement
  | 97 => some .DataDecrement
  | 98 => some .NonRegisteredParameterNumberLsb
  | 99 => some .NonRegisteredParameterNumberMsb
  | 100 => some .RegisteredParameterNumberLsb
  | 101 => some .RegisteredParameterNumberMsb
  | 102 => some .Undefined21
  | 103 => some .Undefined22
  | 104 => some .Undefined23
  | 105 => some .Undefined24
  | 106 => some .Undefined25
  | 107 => some .Undefined26
  | 108 => some .Undefined27
  | 109 => some .Undefined28
  | 110 => some .Undefined29
  | 111 => some .Undefined30
  | 112 => some .Undefined31
  | 113 => some .Undefined32
  | 114 => some .Undefined33
  | 115 => some .Undefined34
  | 116 => some .Undefined35
  | 117 => some .Undefined36
  | 118 => some .Undefined37
  | 119 => some .Undefined38
  | 120 => some .AllSoundsOff
  | 121 => some .ResetAllControllers
  | 122 => some .LocalControl
  | 123 => some .AllNotesOff
  | 124 => some .OmniModeOff
  | 125 => some .OmniModeOn
  | 126 => some .MonoModeOn
  | 127 => some .PolyModeOn
  | _ => none

/-- `ControlChangeKind::as_number`: the inverse numbering of the variants. -/
def ControlChangeKind.as_number : ControlChangeKind → Nat
  | .BankSelectMsb => 0
  | .ModulationWheelMsb => 1
  | .BreathControllerMsb => 2
  | .Undefined0Msb => 3
  | .FootControllerMsb => 4
  | .PortamentoTimeMsb => 5
  | .DataEntryMsb => 6
  | .ChannelVolumeMsb => 7
  | .BalanceMsb => 8
  | .Undefined1Msb => 9
  | .PanMsb => 10
  | .ExpressionControllerMsb => 11
  | .EffectControl1Msb => 12
  | .EffectControl2Msb => 13
  | .Undefined2Msb => 14
  | .Undefined3Msb => 15
  | .GeneralPurposeController1Msb => 16
  | .GeneralPurposeController2Msb => 17
  | .GeneralPurposeController3Msb => 18
  | .GeneralPurposeController4Msb => 19
  | .Undefined4Msb => 20
  | .Undefined5Msb => 21
  | .Undefined6Msb => 22
  | .Undefined7Msb => 23
  | .Undefined8Msb => 24
  | .Undefined9Msb => 25
  | .Undefined10Msb => 26
  | .Undefined11Msb => 27
  | .Undefined12Msb => 28
  | .Undefined13Msb => 29
  | .Undefined14Msb => 30
  | .Undefined15Msb => 31
  | .BankSelectLsb => 32
  | .ModulationWheelLsb => 33
  | .BreathControllerLsb => 34
  | .Undefined0Lsb => 35
  | .FootControllerLsb => 36
  | .PortamentoTimeLsb => 37
  | .DataEntryLsb => 38
  | .ChannelVolumeLsb => 39
  | .BalanceLsb => 40
  | .Undefined1Lsb => 41
  | .PanLsb => 42
  | .ExpressionControllerLsb => 43
  | .EffectControl1Lsb => 44
  | .EffectControl2Lsb => 45
  | .Undefined2Lsb => 46
  | .Undefined3Lsb => 47
  | .GeneralPurposeController1Lsb => 48
  | .GeneralPurposeController2Lsb => 49
  | .GeneralPurposeController3Lsb => 50
  | .GeneralPurposeController4Lsb => 51
  | .Undefined4Lsb => 52
  | .Undefined5Lsb => 53
  | .Undefined6Lsb => 54
  | .Undefined7Lsb => 55
  | .Undefined8Lsb => 56
  | .Undefined9Lsb => 57
  | .Undefined10Lsb => 58
  | .Undefined11Lsb => 59
  | .Undefined12Lsb => 60
  | .Undefined13Lsb => 61
  | .Undefined14Lsb => 62
  | .Undefined15Lsb => 63
  | .DamperPedal => 64
  | .Portamento => 65
  | .Sostenuto => 66
  | .SoftPedal => 67
  | .LegatoFootswitch => 68
  | .Hold2 => 69
  | .SoundController1 => 70
  | .SoundController2 => 71
  | .SoundController3 => 72
  | .SoundController4 => 73
  | .SoundController5 => 74
  | .SoundController6 => 75
  | .SoundController7 => 76
  | .SoundController8 => 77
  | .SoundController9 => 78
  | .SoundController10 => 79
  | .GeneralPurposeController5 => 80
  | .GeneralPurposeController6 => 81
  | .GeneralPurposeController7 => 82
  | .GeneralPurposeController8 => 83
  | .PortamentoControl => 84
  | .Undefined16 => 85
  | .Undefined17 => 86
  | .Undefined18 => 87
  | .HighResolutionVelocityPrefix => 88
  | .Undefined19 => 89
  | .Undefined20 => 90
  | .Effects1Depth => 91
  | .Effects2Depth => 92
  | .Effects3Depth => 93
  | .Effects4Depth => 94
  | .Effects5Depth => 95
  | .DataIncrement => 96
  | .DataDecrement => 97
  | .NonRegisteredParameterNumberLsb => 98
  | .NonRegisteredParameterNumberMsb => 99
  | .RegisteredParameterNumberLsb => 100
  | .RegisteredParameterNumberMsb => 101
  | .Undefined21 => 102
  | .Undefined22 => 103
  | .Undefined23 => 104
  | .Undefined24 => 105
  | .Undefined25 => 106
  | .Undefined26 => 107
  | .Undefined27 => 108
  | .Undefined28 => 109
  | .Undefined29 => 110
  | .Undefined30 => 111
  | .Undefined31 => 112
  | .Undefined32 => 113
  | .Undefined33 => 114
  | .Undefined34 => 115
  | .Undefined35 => 116
  | .Undefined36 => 117
  | .Undefined37 => 118
  | .Undefined38 => 119
  | .AllSoundsOff => 120
  | .ResetAllControllers => 121
  | .LocalControl => 122
  | .AllNotesOff => 123
  | .OmniModeOff => 124
  | .OmniModeOn => 125
  | .MonoModeOn => 126
  | .PolyModeOn => 127
/-- The typed MIDI event from `src/midi/msg.rs` (`MessageKind`); `note`,
`velocity`, `pressure` and `program` are `u8` payloads, `value` of
`PitchWheel` is a 14-bit `u16`. -/
inductive MessageKind where
  | NoteOff (note velocity : Nat)
  | NoteOn (note velocity : Nat)
  | PolyphonicAftertouch (note pressure : Nat)
  | ControlChange (kind : ControlChangeKind) (value : Nat)
  | ProgramChange (program : Nat)
  | ChannelAftertouch (pressure : Nat)
  | PitchWheel (value : Nat)
deriving DecidableEq, Repr

/-- A decoded MIDI message: `Message { kind, channel }`. -/
structure Message where
  kind : MessageKind
  channel : Nat
deriving DecidableEq, Repr

/-- `parse_note_on`: NoteOn with velocity 0 decodes to a `NoteOff` kind. -/
def parse_note_on (bytes : List Nat) : Option MessageKind :=
  if bytes.length < 3 then none
  else
    let velocity := bytes.getD 2 0
    if velocity = 0 then some (.NoteOff (bytes.getD 1 0) velocity)
    else some (.NoteOn (bytes.getD 1 0) velocity)

/-- `parse_note_off`. -/
def parse_note_off (bytes : List Nat) : Option MessageKind :=
  if bytes.length < 3 then none
  else some (.NoteOff (bytes.getD 1 0) (bytes.getD 2 0))

/-- `parse_polyphonic_aftertouch`. -/
def parse_polyphonic_aftertouch (bytes : List Nat) : Option MessageKind :=
  if bytes.length < 3 then none
  else some (.PolyphonicAftertouch (bytes.getD 1 0) (bytes.getD 2 0))

/-- `parse_control_change`: an unrecognized controller number drops the
whole message (the `?` on `ControlChangeKind::from_number`). -/
def parse_control_change (bytes : List Nat) : Option MessageKind :=
  if bytes.length < 3 then none
  else
    match ControlChangeKind.from_number (bytes.getD 1 0) with
    | none => none
    | some kind => some (.ControlChange kind (bytes.getD 2 0))

/-- `parse_program_change`. -/
def parse_program_change (bytes : List Nat) : Option MessageKind :=
  if bytes.length < 2 then none
  else some (.ProgramChange (bytes.getD 1 0))

/-- `parse_channel_aftertouch`. -/
def parse_channel_aftertouch (bytes : List Nat) : Option MessageKind :=
  if bytes.length < 2 then none
  else some (.ChannelAftertouch (bytes.getD 1 0))

/-- `parse_pitch_wheel`: 14-bit value assembled from two 7-bit data bytes. -/
def parse_pitch_wheel (bytes : List Nat) : Option MessageKind :=
  if bytes.length < 3 then none
  else some (.PitchWheel ((bytes.getD 1 0 &&& 0x7F) ||| ((bytes.getD 2 0 &&& 0x7F) <<< 7)))

/-- `decode_non_empty_message`: dispatch on the status nibble.  The Rust
`match cmd` over integer literals is written as the equivalent chain of
equality tests. -/
def decode_non_empty_message (bytes : List Nat) : Option Message :=
  let cmd := bytes.getD 0 0 &&& 0xF0
  let channel := bytes.getD 0 0 &&& 0x0F
  let kind? : Option MessageKind :=
    if cmd = 0x80 then parse_note_off bytes
    else if cmd = 0x90 then parse_note_on bytes
    else if cmd = 0xA0 then parse_polyphonic_aftertouch bytes
    else if cmd = 0xB0 then parse_control_change bytes
    else if cmd = 0xC0 then parse_program_change bytes
    else if cmd = 0xD0 then parse_channel_aftertouch bytes
    else if cmd = 0xE0 then parse_pitch_wheel bytes
    else none
  kind?.map fun kind => { kind := kind, channel := channel }

/-- `Message::decode`: total over arbitrary byte buffers; `none` means the
buffer is silently dropped. -/
def Message.decode (bytes : List Nat) : Option Message :=
  if bytes.isEmpty then none else decode_non_empty_message bytes

/-- The per-node event gate from `src/render/midi_filter.rs` (`MidiFilter`).
The three flag arrays are `Vec<bool>` in the source (length 16 / 128 / 128
in the default instance, but the struct itself fixes no length). -/
structure MidiFilter where
  enabled : Bool
  channels : List Bool
  notes : List Bool
  control_commands : List Bool
  program_change : Bool
  channel_aftertouch : Bool
  pitch_wheel : Bool
deriving DecidableEq, Repr

/-- `MidiFilter::does_pass_when_enabled`.  The source indexes the flag
vectors with `[]`, which panics when the index is out of range; the model
returns `none` there (`List.get?`). -/
def MidiFilter.does_pass_when_enabled (f : MidiFilter) (message : Message) : Option Bool := do
  let channel_flag ← f.channels.get? message.channel
  if !channel_flag then
    pure false
  else
    match message.kind with
    | .NoteOn note _ => f.notes.get? note
    | .NoteOff _ _ => pure true
    | .PolyphonicAftertouch note _ => f.notes.get? note
    | .ControlChange kind _ => f.control_commands.get? kind.as_number
    | .ProgramChange _ => pure f.program_change
    | .ChannelAftertouch _ => pure f.channel_aftertouch
    | .PitchWheel _ => pure f.pitch_wheel

/-- `MidiFilter::does_pass`: a disabled filter passes everything. -/
def MidiFilter.does_pass (f : MidiFilter) (message : Message) : Option Bool :=
  if !f.enabled then pure true else f.does_pass_when_enabled message

/-- `impl Default for MidiFilter`: enabled, with every flag set. -/
def MidiFilter.default_filter : MidiFilter where
  enabled := true
  channels := List.replicate 16 true
  notes := List.replicate 128 true
  control_commands := List.replicate 128 true
  program_change := true
  channel_aftertouch := true
  pitch_wheel := true

/-- `i8::saturating_add`, on the mathematical integers. -/
def i8_saturating_add (a b : Int) : Int :=
  max (-128) (min 127 (a + b))

/-- The event a fluidlite node hands to its synthesis engine, one
constructor per `fluidlite::Synth` call in `Node::process_midi_message`
(`src/render/node/fluidlite_synth.rs`). -/
inductive EngineEvent where
  | note_on (note velocity : Nat)
  | note_off (note : Nat)
  | key_pressure (note pressure : Nat)
  | cc (num value : Nat)
  | program_change (program : Nat)
  | channel_pressure (pressure : Nat)
  | pitch_bend (value : Nat)
deriving DecidableEq, Repr

/-- The configuration of a fluidlite synthesizer node
(`src/render/node/fluidlite_synth.rs`, `struct Node`) that its MIDI path
reads.  The engine handle, resource-load bookkeeping, buffers, gain,
velocity mapping, name and preset state play no part in the functions
modelled below and are omitted. -/
structure FLNode where
  enabled : Bool
  midi_filter : MidiFilter
  transposition : Int
  global_transposition : Int
  ignore_global_transposition : Bool
deriving DecidableEq, Repr

/-- `Node::does_midi_msg_pass`: only `NoteOn` is gated by the enabled
flag. -/
def FLNode.does_midi_msg_pass (n : FLNode) (msg : Message) : Bool :=
  match msg.kind with
  | .NoteOn _ _ => n.enabled
  | _ => true

/-- `Node::get_total_transposition`: the node and global transpositions
are combined with `i8::saturating_add` unless the node ignores the global
term. -/
def FLNode.get_total_transposition (n : FLNode) : Int :=
  if n.ignore_global_transposition then n.transposition
  else i8_saturating_add n.transposition n.global_transposition

/-- `Node::transpose_note`: `(note as i16 + total as i16) as u8`.  The
`i16` sum never overflows (it lies in `[-128, 382]`), and the `as u8`
cast keeps the low 8 bits, i.e. reduces modulo 256. -/
def FLNode.transpose_note (n : FLNode) (note : Nat) : Nat :=
  (((note : Int) + n.get_total_transposition) % 256).toNat

/-- `Node::process_midi_message`: the engine call made for each message
kind, assuming the engine handle is present (when it is absent the call
is skipped; the event an engine would receive is unchanged). -/
def FLNode.process_midi_message (n : FLNode) (message : Message) : EngineEvent :=
  match message.kind with
  | .NoteOn note velocity => .note_on (n.transpose_note note) velocity
  | .NoteOff note _ => .note_off (n.transpose_note note)
  | .PolyphonicAftertouch note pressure => .key_pressure note pressure
  | .ControlChange kind value => .cc kind.as_number value
  | .ProgramChange program => .program_change program
  | .ChannelAftertouch pressure => .channel_pressure pressure
  | .PitchWheel value => .pitch_bend value

/-- `Node::receive_midi_message`, reduced to the gate decision: `some true`
when the message reaches `process_midi_message`, `some false` when it is
filtered out, `none` when `does_pass` panics on an out-of-range index. -/
def FLNode.receive_midi_message (n : FLNode) (message : Message) : Option Bool := do
  let p ← n.midi_filter.does_pass message
  pure (p && n.does_midi_msg_pass message)

/-- Stand-in for `serde_json::Value`: the graph-mutation protocol only
moves serialized values around, never inspects them. -/
def JsonValue := Nat
deriving DecidableEq, Repr

instance : OfNat JsonValue n := ⟨(n : Nat)⟩

/-- Abstraction of a boxed render node (`RenderPtr = Box<dyn Render>`)
as seen by `Renderer::process_request` in `src/render/mod.rs`:
`serialize()` either produces a value or fails (`serialize_result`),
`set_sample_rate` / `set_global_transposition` store configuration, and a
node-level request is answered through its callback (`node_response`, the
payload held abstract).  Rendering, the engine and `set_virtual_paths`
are not modelled. -/
structure RenderNode where
  serialize_result : Option JsonValue
  sample_rate : Option Nat := none
  global_transposition : Int := 0
  node_response : Nat := 0
deriving DecidableEq, Repr

instance : Inhabited RenderNode := ⟨{ serialize_result := none }⟩

/-- `RequestKind` from `src/render/command/mod.rs` (the node-level request
payload held abstract). -/
inductive RequestKind where
  | NodeRequest (id : Nat) (kind : Nat)
  | AddNode (kind : String)
  | RemoveNode (id : Nat)
  | CloneNode (id : Nat)
  | MoveNode (id : Nat) (new_id : Nat)
deriving DecidableEq, Repr

/-- `ResponseKind` from `src/render/command/mod.rs` (node responses and
serialized instances held abstract). -/
inductive ResponseKind where
  | InvalidNodeKind
  | InvalidId
  | Denied
  | Failed
  | NodeResponse (id : Nat) (kind : Nat)
  | AddNode (id : Nat) (kind : String) (serialized : JsonValue)
  | RemoveNode (id : Nat)
  | CloneNode (id : Nat)
  | MoveNode (id : Nat) (new_id : Nat)
deriving DecidableEq, Repr

/-- The state of `Renderer` (`src/render/mod.rs`) that
`process_request` touches.  The registered constructor for a kind is
modelled by the node it constructs (the registered closures are pure
default-constructors); channels and virtual paths are external I/O. -/
structure RendererState where
  registered_node_kinds : List (String × RenderNode)
  nodes : List (String × RenderNode)
  sample_rate : Option Nat
  global_transposition : Int
deriving DecidableEq, Repr

/-- `Renderer::add_node`: propagate the current sample rate (when one is
set) and the global transposition, then push the node at the end. -/
def RendererState.add_node (s : RendererState) (kind : String) (node : RenderNode) :
    RendererState :=
  let node :=
    match s.sample_rate with
    | some sample_rate => { node with sample_rate := some sample_rate }
    | none => node
  let node := { node with global_transposition := s.global_transposition }
  { s with nodes := s.nodes ++ [(kind, node)] }

/-- `Renderer::clone_node` duplicates the node configuration (the modelled
fields); the live engine handle, which the model does not carry, is not
cloned. -/
def RenderNode.clone_node (node : RenderNode) : RenderNode := node

/-- `Renderer::process_request` from `src/render/mod.rs`, the renderer the
binary builds (`main.rs` uses `render::Renderer`; the reworked
`src/render/renderer.rs` is not declared as a module).  Returns the new
state and the response sent through the responder, or `none` when the
request panics: the `MoveNode` arm of the source is `todo!()`. -/
def RendererState.process_request (s : RendererState) :
    RequestKind → Option (RendererState × ResponseKind)
  | .NodeRequest id _ =>
      if id ≥ s.nodes.length then some (s, .InvalidId)
      else some (s, .NodeResponse id (s.nodes.getD id default).2.node_response)
  | .AddNode kind =>
      match s.registered_node_kinds.lookup kind with
      | none => some (s, .InvalidNodeKind)
      | some node =>
          match node.serialize_result with
          | some value =>
              let s' := s.add_node kind node
              some (s', .AddNode (s'.nodes.length - 1) kind value)
          | none => some (s, .Failed)
  | .RemoveNode id =>
      if id ≥ s.nodes.length then some (s, .InvalidId)
      else some ({ s with nodes := s.nodes.eraseIdx id }, .RemoveNode id)
  | .CloneNode id =>
      if id ≥ s.nodes.length then some (s, .InvalidId)
      else
        let node := s.nodes.getD id default
        some (s.add_node node.1 node.2.clone_node, .CloneNode id)
  | .MoveNode _ _ => none

namespace RendererRs

/-- `ResponseKind` of the reworked renderer (`src/render/renderer.rs`),
which answers graph mutations with a plain `Ok`. -/
inductive ResponseKind where
  | InvalidNodeKind
  | InvalidId
  | Denied
  | Failed
  | Ok
  | NodeResponse (id : Nat) (kind : Nat)
deriving DecidableEq, Repr

/-- `Renderer::process_move_node` from `src/render/renderer.rs` (present
in the tree but not compiled into the binary): validate both indices
against the node count, then `remove` followed by `insert`. -/
def process_move_node (s : RendererState) (id new_id : Nat) :
    RendererState × ResponseKind :=
  if id ≥ s.nodes.length ∨ new_id ≥ s.nodes.length then (s, .InvalidId)
  else
    let node := s.nodes.getD id default
    ({ s with nodes := (s.nodes.eraseIdx id).insertIdx new_id node }, .Ok)

end RendererRs

/-- `Rhythm` from `src/rhythm.rs`; both fields are `u8`. -/
structure Rhythm where
  num_beats : Nat
  num_divs : Nat
deriving DecidableEq, Repr

/-- `Rhythm::num_slots`. -/
def Rhythm.num_slots (r : Rhythm) : Nat :=
  r.num_beats * r.num_divs

/-- `impl Default for Rhythm`: 4 beats of 4 subdivisions. -/
def Rhythm.default_rhythm : Rhythm := ⟨4, 4⟩

/-- A sequencer instrument row (`Voice` in `src/control/drum_machine.rs`). -/
structure Voice where
  name : String
  instrument_index : Option Nat
  channel : Nat
  note : Nat
  velocity : Nat
  slots : List Bool
deriving DecidableEq, Repr

/-- `interpolate_slots`: each old slot followed by `factor - 1` empty
slots. -/
def interpolate_slots (voice : Voice) (factor : Nat) : Voice :=
  { voice with
    slots := voice.slots.flatMap fun item => item :: List.replicate (factor - 1) false }

/-- `Iterator::step_by(factor)` over a slot vector: the first element,
then every `factor`-th one.  Every caller passes `factor ≥ 1` (Rust
panics on `step_by(0)`). -/
def step_by_slots (factor : Nat) : List Bool → List Bool
  | [] => []
  | item :: rest => item :: step_by_slots factor (rest.drop (factor - 1))
termination_by l => l.length
decreasing_by
  simp only [List.length_cons, List.length_drop]
  omega

/-- `decimate_slots`: keep every `factor`-th slot. -/
def decimate_slots (voice : Voice) (factor : Nat) : Voice :=
  { voice with slots := step_by_slots factor voice.slots }

/-- `Vec::resize(size, false)` on a slot vector: truncate or pad with
`false`. -/
def resize_slots (slots : List Bool) (size : Nat) : List Bool :=
  slots.take size ++ List.replicate (size - slots.length) false

/-- The scheduler voice list (`Voices` in `src/control/drum_machine.rs`). -/
structure Voices where
  num_slots : Nat
  voices : List Voice
deriving DecidableEq, Repr

/-- `Voices::update_slots_interleave`. -/
def Voices.update_slots_interleave (vs : Voices) (factor : Nat) : Voices :=
  { vs with voices := vs.voices.map (interpolate_slots · factor) }

/-- `Voices::update_slots_append`: grow every voice by `number` empty
slots at the end. -/
def Voices.update_slots_append (vs : Voices) (number : Nat) : Voices :=
  { vs with
    voices := vs.voices.map fun voice =>
      { voice with slots := voice.slots ++ List.replicate number false } }

/-- `Voices::update_slots_decimate`. -/
def Voices.update_slots_decimate (vs : Voices) (factor : Nat) : Voices :=
  { vs with voices := vs.voices.map (decimate_slots · factor) }

/-- `Voices::update_slots_cut_out`: `resize(len - number)`; the `usize`
subtraction is the `FIXME: attempt to subtract with overflow` in the
source, modelled with truncating `Nat` subtraction. -/
def Voices.update_slots_cut_out (vs : Voices) (number : Nat) : Voices :=
  { vs with
    voices := vs.voices.map fun voice =>
      { voice with slots := resize_slots voice.slots (voice.slots.length - number) } }

/-- `Voices::update_slots_resize`: hard resize to `size`. -/
def Voices.update_slots_resize (vs : Voices) (size : Nat) : Voices :=
  { vs with
    voices := vs.voices.map fun voice =>
      { voice with slots := resize_slots voice.slots size } }

/-- `Voices::update_slots`: choose interleave / append / decimate /
cut-out / hard resize from the ratio of the old and new slot counts. -/
def Voices.update_slots (vs : Voices) (prev_num_slots : Nat) : Voices :=
  let num_slots := vs.num_slots
  if prev_num_slots = 0 ∨ num_slots = 0 then
    vs.update_slots_resize num_slots
  else if num_slots > prev_num_slots then
    if num_slots % prev_num_slots = 0 then
      vs.update_slots_interleave (num_slots / prev_num_slots)
    else
      vs.update_slots_append (num_slots - prev_num_slots)
  else if num_slots < prev_num_slots then
    if prev_num_slots % num_slots = 0 then
      vs.update_slots_decimate (prev_num_slots / num_slots)
    else
      vs.update_slots_cut_out (prev_num_slots - num_slots)
  else
    vs

/-- `Voices::set_num_slots`. -/
def Voices.set_num_slots (vs : Voices) (num_slots : Nat) : Voices :=
  let prev_num_slots := vs.num_slots
  Voices.update_slots { vs with num_slots := num_slots } prev_num_slots

/-- The scheduler state (`DrumMachine` in `src/control/drum_machine.rs`)
touched by the clock and the rhythm requests.  `f32` time and tempo are
idealized as `ℚ`; `start` is folded into the `time` argument of the
operations (`timestamp()` is `now - start`).  The command channels and
the preset-file I/O are external. -/
structure DrumMachine where
  enabled : Bool
  voices : Voices
  rhythm : Rhythm
  tempo_bpm : ℚ
  last_time : ℚ
  current_beat : Nat
  current_div : Nat
deriving DecidableEq, Repr

/-- `DrumMachine::new` (the fields modelled here): enabled, default
rhythm, 90 bpm, clock at the origin, and the empty voice list resized to
the default rhythm's 16 slots. -/
def DrumMachine.new : DrumMachine where
  enabled := true
  voices := Voices.set_num_slots ⟨0, []⟩ Rhythm.default_rhythm.num_slots
  rhythm := Rhythm.default_rhythm
  tempo_bpm := 90
  last_time := 0
  current_beat := 0
  current_div := 0

/-- `DrumMachine::period`: `60 / (tempo_bpm * num_divs)` seconds. -/
def DrumMachine.period (dm : DrumMachine) : ℚ :=
  60 / (dm.tempo_bpm * (dm.rhythm.num_divs : ℚ))

/-- `DrumMachine::reset` at timestamp `now`: back the fire clock up by
one period and rewind the indices to the last slot.  The `u8`
subtractions are modelled by `Nat` subtraction (they underflow in Rust
only for a zero-beat or zero-div rhythm). -/
def DrumMachine.reset (dm : DrumMachine) (now : ℚ) : DrumMachine :=
  { dm with
    last_time := now - dm.period
    current_beat := dm.rhythm.num_beats - 1
    current_div := dm.rhythm.num_divs - 1 }

/-- `DrumMachine::set_enabled`: store the flag, and reset the clock when
enabling. -/
def DrumMachine.set_enabled (dm : DrumMachine) (flag : Bool) (now : ℚ) : DrumMachine :=
  let dm := { dm with enabled := flag }
  if flag then dm.reset now else dm

/-- `DrumMachine::set_rhythm`: store the rhythm and cascade the new slot
count into every voice.  The current beat/div indices are not touched. -/
def DrumMachine.set_rhythm (dm : DrumMachine) (rhythm : Rhythm) : DrumMachine :=
  let dm := { dm with rhythm := rhythm }
  { dm with voices := dm.voices.set_num_slots dm.rhythm.num_slots }

/-- `DrumMachine::set_tempo_bpm`. -/
def DrumMachine.set_tempo_bpm (dm : DrumMachine) (tempo_bpm : ℚ) : DrumMachine :=
  { dm with tempo_bpm := tempo_bpm }

/-- `DrumMachine::advance_beat`. -/
def DrumMachine.advance_beat (dm : DrumMachine) : DrumMachine :=
  { dm with current_beat := (dm.current_beat + 1) % dm.rhythm.num_beats }

/-- `DrumMachine::advance_div`: advance the subdivision modulo `num_divs`
and carry into the beat on wrap-around. -/
def DrumMachine.advance_div (dm : DrumMachine) : DrumMachine :=
  let dm := { dm with current_div := (dm.current_div + 1) % dm.rhythm.num_divs }
  if dm.current_div = 0 then dm.advance_beat else dm

/-- `DrumMachine::slot_index`. -/
def DrumMachine.slot_index (dm : DrumMachine) (beat_num div_num : Nat) : Nat :=
  beat_num * dm.rhythm.num_divs + div_num

/-- `DrumMachine::tick` at timestamp `time` (the request drain that
precedes it is sequenced separately through `DMOp`).  When enabled and at
least one period has elapsed since `last_time`, fire the beat-tick for
the current `(beat, div)` position, advance, and accumulate `last_time`
by one period.  Returns the new state and the fired position, if any. -/
def DrumMachine.tick (dm : DrumMachine) (time : ℚ) : DrumMachine × Option (Nat × Nat) :=
  if dm.enabled then
    let period := dm.period
    if time - dm.last_time ≥ period then
      let fired := (dm.current_beat, dm.current_div)
      (({ dm with last_time := dm.last_time + period }).advance_div, some fired)
    else (dm, none)
  else (dm, none)

/-- One scheduler operation: a clock tick, or one of the `RequestKind`
variants of `src/control/drum_machine.rs` that touch the beat clock.
Operations that read the wall clock carry the timestamp they observe. -/
inductive DMOp where
  | Tick (time : ℚ)
  | SetRhythm (rhythm : Rhythm)
  | SetTempoBpm (tempo_bpm : ℚ)
  | Reset (time : ℚ)
  | SetEnabled (flag : Bool) (time : ℚ)
deriving DecidableEq, Repr

/-- The state transition of one scheduler operation. -/
def DrumMachine.step (dm : DrumMachine) : DMOp → DrumMachine
  | .Tick time => (dm.tick time).1
  | .SetRhythm rhythm => dm.set_rhythm rhythm
  | .SetTempoBpm tempo_bpm => dm.set_tempo_bpm tempo_bpm
  | .Reset time => dm.reset time
  | .SetEnabled flag time => dm.set_enabled flag time

/-- The BeatClock range invariant: `current_beat < num_beats` and
`current_div < num_divs`. -/
def DrumMachine.clock_in_range (dm : DrumMachine) : Prop :=
  dm.current_beat < dm.rhythm.num_beats ∧ dm.current_div < dm.rhythm.num_divs

instance (dm : DrumMachine) : Decidable dm.clock_in_range := by
  unfold DrumMachine.clock_in_range; infer_instance

/-! Theorems about MIDI decoding (claims C7 and C8). -/

lemma status_hi_90 (c : Nat) (h : c < 16) : (0x90 ||| c) &&& 0xF0 = 0x90 := by
  interval_cases c <;> decide

lemma status_lo_90 (c : Nat) (h : c < 16) : (0x90 ||| c) &&& 0x0F = c := by
  interval_cases c <;> decide

lemma status_hi_80 (c : Nat) (h : c < 16) : (0x80 ||| c) &&& 0xF0 = 0x80 := by
  interval_cases c <;> decide

lemma status_lo_80 (c : Nat) (h : c < 16) : (0x80 ||| c) &&& 0x0F = c := by
  interval_cases c <;> decide

/-- Claim C7: for every note `n`, channel nibble `c < 16` and trailing
bytes, decoding `[0x90 | c, n, 0]` (NoteOn, velocity 0) yields a `NoteOff`
kind with note `n` and velocity 0 — the same message that
`[0x80 | c, n, 0]` (explicit NoteOff, velocity 0) decodes to. -/
theorem claim_C7_note_on_velocity_zero (c n : Nat) (rest : List Nat) (hc : c < 16) :
    Message.decode ((0x90 ||| c) :: n :: 0 :: rest) = some ⟨.NoteOff n 0, c⟩ ∧
    Message.decode ((0x80 ||| c) :: n :: 0 :: rest) = some ⟨.NoteOff n 0, c⟩ := by
  constructor
  · simp [Message.decode, decode_non_empty_message, parse_note_on, parse_note_off,
      status_hi_90 c hc, status_lo_90 c hc]
  · simp [Message.decode, decode_non_empty_message, parse_note_on, parse_note_off,
      status_hi_80 c hc, status_lo_80 c hc]

/-- Witness for claim C7 at channel 0, note 60: `[0x90, 60, 0]` and
`[0x80, 60, 0]` both decode to NoteOff, note 60, velocity 0. -/
theorem claim_C7_witness :
    Message.decode [0x90, 60, 0] = some ⟨.NoteOff 60 0, 0⟩ ∧
    Message.decode [0x80, 60, 0] = some ⟨.NoteOff 60 0, 0⟩ := by
  have h := claim_C7_note_on_velocity_zero 0 60 [] (by decide)
  simpa using h

/-- The status nibbles `decode_non_empty_message` recognizes. -/
def status_recognized (cmd : Nat) : Bool :=
  cmd == 0x80 || cmd == 0x90 || cmd == 0xA0 || cmd == 0xB0 || cmd == 0xC0 ||
    cmd == 0xD0 || cmd == 0xE0

/-- Bytes a recognized status byte requires: 2 for ProgramChange and
ChannelAftertouch, 3 for the rest. -/
def status_required_len (cmd : Nat) : Nat :=
  if cmd == 0xC0 || cmd == 0xD0 then 2 else 3

/-- The drop condition of claim C8, written from the claim: empty buffer,
buffer shorter than its status byte requires, unrecognized status nibble,
or a ControlChange whose controller number `ControlChangeKind::from_number`
does not recognize. -/
def decode_dropped (bytes : List Nat) : Bool :=
  bytes.isEmpty ||
  (let cmd := bytes.getD 0 0 &&& 0xF0
   !status_recognized cmd ||
   decide (bytes.length < status_required_len cmd) ||
   (cmd == 0xB0 && (ControlChangeKind.from_number (bytes.getD 1 0)).isNone))

/-- Claim C8: `Message::decode` is total (it is a Lean function), and it
returns `none` — the message is silently dropped — exactly under the drop
condition of the claim. -/
theorem claim_C8_decode_none_iff_dropped (bytes : List Nat) :
    Message.decode bytes = none ↔ decode_dropped bytes = true := by
  cases bytes with
  | nil => simp [Message.decode, decode_dropped]
  | cons b rest =>
    by_cases h80 : b &&& 0xF0 = 0x80
    · simp only [Message.decode, List.isEmpty_cons, Bool.false_eq_true, if_false,
        decode_non_empty_message, decode_dropped, List.getD_cons_zero, h80,
        parse_note_off, status_recognized, status_required_len]
      norm_num
      refine ⟨fun h => ?_, fun h h2 => absurd h2 (by omega)⟩
      by_contra hc
      exact Option.noConfusion (h (by omega))
    · by_cases h90 : b &&& 0xF0 = 0x90
      · simp only [Message.decode, List.isEmpty_cons, Bool.false_eq_true, if_false,
          decode_non_empty_message, decode_dropped, List.getD_cons_zero, h90,
          parse_note_on, status_recognized, status_required_len]
        norm_num
        refine ⟨fun h => ?_, fun h h2 => absurd h2 (by omega)⟩
        by_contra hc
        have h3 := h (by omega)
        split_ifs at h3
      · by_cases hA0 : b &&& 0xF0 = 0xA0
        · simp only [Message.decode, List.isEmpty_cons, Bool.false_eq_true, if_false,
            decode_non_empty_message, decode_dropped, List.getD_cons_zero, hA0,
            parse_polyphonic_aftertouch, status_recognized, status_required_len]
          norm_num
          refine ⟨fun h => ?_, fun h h2 => absurd h2 (by omega)⟩
          by_contra hc
          exact Option.noConfusion (h (by omega))
        · by_cases hB0 : b &&& 0xF0 = 0xB0
          · simp only [Message.decode, List.isEmpty_cons, Bool.false_eq_true, if_false,
              decode_non_empty_message, decode_dropped, List.getD_cons_zero, hB0,
              parse_control_change, status_recognized, status_required_len]
            norm_num
            constructor
            · intro h
              by_cases hlen : rest.length + 1 < 3
              · exact Or.inl hlen
              · refine Or.inr ?_
                have h2 := h (by omega)
                rcases hfn : ControlChangeKind.from_number (rest[0]?.getD 0) with _ | k
                · rfl
                · rw [hfn] at h2
                  exact Option.noConfusion h2
            · intro h h2
              rcases h with h | h
              · exact absurd h2 (by omega)
              · rw [h]
          · by_cases hC0 : b &&& 0xF0 = 0xC0
            · simp only [Message.decode, List.isEmpty_cons, Bool.false_eq_true, if_false,
                decode_non_empty_message, decode_dropped, List.getD_cons_zero, hC0,
                parse_program_change, status_recognized, status_required_len]
              norm_num
              refine ⟨fun h => ?_, fun h h2 => absurd h2 (by omega)⟩
              by_contra hc
              exact Option.noConfusion (h (by omega))
            · by_cases hD0 : b &&& 0xF0 = 0xD0
              · simp only [Message.decode, List.isEmpty_cons, Bool.false_eq_true, if_false,
                  decode_non_empty_message, decode_dropped, List.getD_cons_zero, hD0,
                  parse_channel_aftertouch, status_recognized, status_required_len]
                norm_num
                refine ⟨fun h => ?_, fun h h2 => absurd h2 (by omega)⟩
                by_contra hc
                exact Option.noConfusion (h (by omega))
              · by_cases hE0 : b &&& 0xF0 = 0xE0
                · simp only [Message.decode, List.isEmpty_cons, Bool.false_eq_true, if_false,
                    decode_non_empty_message, decode_dropped, List.getD_cons_zero, hE0,
                    parse_pitch_wheel, status_recognized, status_required_len]
                  norm_num
                  refine ⟨fun h => ?_, fun h h2 => absurd h2 (by omega)⟩
                  by_contra hc
                  exact Option.noConfusion (h (by omega))
                · simp [Message.decode, decode_non_empty_message, decode_dropped,
                    status_recognized, status_required_len, h80, h90, hA0, hB0, hC0,
                    hD0, hE0]

/-! Theorems about the MIDI filter and the node MIDI path (claims C6, C9
and C10). -/

/-- The flag claim C6 requires for each event type: NoteOn and
PolyphonicAftertouch read the note flags, ControlChange the controller
flags, ProgramChange / ChannelAftertouch / PitchWheel their single flags.
The claim lists no flag for NoteOff, so no requirement is imposed there. -/
def claim_flag_set (f : MidiFilter) (message : Message) : Prop :=
  match message.kind with
  | .NoteOn note _ => f.notes.get? note = some true
  | .NoteOff _ _ => True
  | .PolyphonicAftertouch note _ => f.notes.get? note = some true
  | .ControlChange kind _ => f.control_commands.get? kind.as_number = some true
  | .ProgramChange _ => f.program_change = true
  | .ChannelAftertouch _ => f.channel_aftertouch = true
  | .PitchWheel _ => f.pitch_wheel = true

/-- Claim C6: a disabled filter passes every message, and an enabled
filter passes a message only if the flag for that event's type and index
is set. -/
theorem claim_C6_midi_filter_gate (f : MidiFilter) (message : Message) :
    (f.enabled = false → f.does_pass message = some true) ∧
    (f.enabled = true → f.does_pass message = some true → claim_flag_set f message) := by
  obtain ⟨kind, channel⟩ := message
  constructor
  · intro h
    simp [MidiFilter.does_pass, h]
  · intro he hp
    simp only [MidiFilter.does_pass, he, Bool.not_true, Bool.false_eq_true, if_false] at hp
    unfold MidiFilter.does_pass_when_enabled at hp
    cases hch : f.channels.get? channel with
    | none => rw [hch] at hp; exact Option.noConfusion hp
    | some chflag =>
      rw [hch] at hp
      simp only [Option.some_bind] at hp
      by_cases hcf : chflag = true
      · simp only [hcf, Bool.not_true, Bool.false_eq_true, if_false] at hp
        cases kind <;> simp_all [claim_flag_set]
      · simp only [Bool.not_eq_true] at hcf
        simp [hcf] at hp

/-- Witness for claim C6: the default filter is enabled and passes
NoteOn 60, so by the theorem the flag for note 60 is set. -/
theorem claim_C6_witness :
    MidiFilter.default_filter.notes.get? 60 = some true :=
  (claim_C6_midi_filter_gate MidiFilter.default_filter ⟨.NoteOn 60 64, 0⟩).2 rfl (by decide)

/-- The transposed note exactly as claim C9 words it:
`note + node_transposition + (ignore_global ? 0 : global_transposition)`,
the transposition terms combined with saturating `i8` arithmetic and the
result truncated to the 8-bit note range. -/
def spec_transposed_note (note : Nat) (node_transposition global_transposition : Int)
    (ignore_global : Bool) : Nat :=
  (((note : Int) + i8_saturating_add node_transposition
      (if ignore_global then 0 else global_transposition)) % 256).toNat

/-- Claim C9: every NoteOn and NoteOff a node forwards to its engine
carries the note transposed per the claim's formula.  The `i8` field
bounds on `transposition` are the only hypotheses used. -/
theorem claim_C9_transposed_note (n : FLNode) (note velocity channel : Nat)
    (h1 : -128 ≤ n.transposition) (h2 : n.transposition ≤ 127) :
    n.process_midi_message ⟨.NoteOn note velocity, channel⟩ =
      .note_on (spec_transposed_note note n.transposition n.global_transposition
        n.ignore_global_transposition) velocity ∧
    n.process_midi_message ⟨.NoteOff note velocity, channel⟩ =
      .note_off (spec_transposed_note note n.transposition n.global_transposition
        n.ignore_global_transposition) := by
  have key : n.transpose_note note = spec_transposed_note note n.transposition
      n.global_transposition n.ignore_global_transposition := by
    unfold FLNode.transpose_note spec_transposed_note FLNode.get_total_transposition
      i8_saturating_add
    by_cases hig : n.ignore_global_transposition
    · simp only [hig, if_true]
      rw [Int.add_zero, min_eq_right h2, max_eq_right h1]
    · simp only [hig, Bool.false_eq_true, if_false]
  constructor <;> simp [FLNode.process_midi_message, key]

/-- A concrete fluidlite node used to instantiate claims C9 and C10. -/
def sample_node : FLNode where
  enabled := true
  midi_filter := MidiFilter.default_filter
  transposition := 7
  global_transposition := -12
  ignore_global_transposition := false

/-- Witness for claim C9 at note 60, velocity 100 on the sample node. -/
theorem claim_C9_witness :
    sample_node.process_midi_message ⟨.NoteOn 60 100, 0⟩ =
      .note_on (spec_transposed_note 60 sample_node.transposition
        sample_node.global_transposition sample_node.ignore_global_transposition) 100 ∧
    sample_node.process_midi_message ⟨.NoteOff 60 100, 0⟩ =
      .note_off (spec_transposed_note 60 sample_node.transposition
        sample_node.global_transposition sample_node.ignore_global_transposition) :=
  claim_C9_transposed_note sample_node 60 100 0 (by decide) (by decide)

/-- Claim C10: with the enabled flag cleared, `receive_midi_message`
suppresses exactly the NoteOn messages: every non-NoteOn message that
passes the node's MidiFilter still reaches the engine, and no NoteOn
does. -/
theorem claim_C10_disabled_gates_only_note_on (n : FLNode) (message : Message)
    (hdis : n.enabled = false) :
    ((∀ note velocity, message.kind ≠ .NoteOn note velocity) →
      n.midi_filter.does_pass message = some true →
      n.receive_midi_message message = some true) ∧
    (∀ note velocity, message.kind = .NoteOn note velocity →
      n.receive_midi_message message ≠ some true) := by
  constructor
  · intro hnotOn hp
    have hdmp : n.does_midi_msg_pass message = true := by
      unfold FLNode.does_midi_msg_pass
      cases hk : message.kind with
      | NoteOn note velocity => exact absurd hk (hnotOn note velocity)
      | _ => rfl
    unfold FLNode.receive_midi_message
    rw [hp]
    show some (true && n.does_midi_msg_pass message) = some true
    rw [hdmp]
    rfl
  · intro note velocity hk
    unfold FLNode.receive_midi_message
    cases hp : n.midi_filter.does_pass message with
    | none => simp
    | some p =>
      show some (p && n.does_midi_msg_pass message) ≠ some true
      unfold FLNode.does_midi_msg_pass
      simp [hk, hdis]

/-- The sample node with its enabled flag cleared. -/
def muted_node : FLNode :=
  { sample_node with enabled := false }

/-- Witness for claim C10 on the muted node: NoteOff 60 still reaches the
engine, NoteOn 60 does not. -/
theorem claim_C10_witness :
    muted_node.receive_midi_message ⟨.NoteOff 60 0, 0⟩ = some true ∧
    muted_node.receive_midi_message ⟨.NoteOn 60 100, 0⟩ ≠ some true :=
  ⟨(claim_C10_disabled_gates_only_note_on muted_node ⟨.NoteOff 60 0, 0⟩ rfl).1
      (fun _ _ h => MessageKind.noConfusion h) (by decide),
    (claim_C10_disabled_gates_only_note_on muted_node ⟨.NoteOn 60 100, 0⟩ rfl).2 60 100 rfl⟩

/-! Theorems about the render-graph command protocol (claims C1 and C3). -/

/-- Claim C1 (refuted): in the renderer the binary compiles
(`src/render/mod.rs`), the `MoveNode` arm of `process_request` is
`todo!()`, so every `MoveNode` request — valid indices or not — panics
instead of validating, mutating and responding. -/
theorem claim_C1_move_node_panics : ∀ (s : RendererState) (id new_id : Nat),
    s.process_request (.MoveNode id new_id) = none :=
  fun _ _ _ => rfl

/-- The contract claim C1 describes does hold of the reworked
`Renderer::process_move_node` in `src/render/renderer.rs` (dead code: the
module is not declared): both indices are validated, and on success the
node is removed and reinserted with the node count preserved. -/
theorem move_node_rs_meets_contract (s : RendererState) (id new_id : Nat) :
    ((id ≥ s.nodes.length ∨ new_id ≥ s.nodes.length) →
      RendererRs.process_move_node s id new_id = (s, .InvalidId)) ∧
    (id < s.nodes.length → new_id < s.nodes.length →
      RendererRs.process_move_node s id new_id =
        ({ s with nodes := (s.nodes.eraseIdx id).insertIdx new_id (s.nodes.getD id default) },
          .Ok) ∧
      ((s.nodes.eraseIdx id).insertIdx new_id (s.nodes.getD id default)).length =
        s.nodes.length) := by
  constructor
  · intro h
    unfold RendererRs.process_move_node
    rw [if_pos h]
  · intro h1 h2
    constructor
    · unfold RendererRs.process_move_node
      rw [if_neg (by omega)]
    · have hlen : (s.nodes.eraseIdx id).length = s.nodes.length - 1 := by
        rw [List.length_eraseIdx]
        simp [h1]
      rw [List.length_insertIdx _ _ (by omega), hlen]
      omega

/-- Claim C3: `AddNode` is atomic.  An unregistered kind answers
`InvalidNodeKind`, a node whose initial serialization fails answers
`Failed`, and in both cases the whole state — in particular the node
list — is unchanged; on success exactly one node is appended at the end
and the response carries `id = len - 1`. -/
theorem claim_C3_add_node_atomic (s : RendererState) (kind : String) :
    (s.registered_node_kinds.lookup kind = none →
      s.process_request (.AddNode kind) = some (s, .InvalidNodeKind)) ∧
    (∀ node, s.registered_node_kinds.lookup kind = some node →
      node.serialize_result = none →
      s.process_request (.AddNode kind) = some (s, .Failed)) ∧
    (∀ node value, s.registered_node_kinds.lookup kind = some node →
      node.serialize_result = some value →
      s.process_request (.AddNode kind) =
        some (s.add_node kind node,
          .AddNode ((s.add_node kind node).nodes.length - 1) kind value) ∧
      (∃ configured, (s.add_node kind node).nodes = s.nodes ++ [(kind, configured)]) ∧
      (s.add_node kind node).nodes.length = s.nodes.length + 1) := by
  refine ⟨fun h => ?_, fun node h hs => ?_, fun node value h hs => ?_⟩
  · simp only [RendererState.process_request]
    rw [h]
  · simp only [RendererState.process_request, h, hs]
  · refine ⟨?_, ?_, ?_⟩
    · simp only [RendererState.process_request, h, hs]
    · exact ⟨_, rfl⟩
    · unfold RendererState.add_node
      simp

/-- A renderer with two registered kinds — one serializable, one whose
initial serialization fails — and an empty node list, used to instantiate
claim C3. -/
def sample_renderer : RendererState where
  registered_node_kinds :=
    [("good", { serialize_result := some 7 }), ("bad", { serialize_result := none })]
  nodes := []
  sample_rate := none
  global_transposition := 0

/-- Witness for claim C3 on the sample renderer: all three branches of
the claim at concrete requests. -/
theorem claim_C3_witness :
    sample_renderer.process_request (.AddNode "missing") =
      some (sample_renderer, .InvalidNodeKind) ∧
    sample_renderer.process_request (.AddNode "bad") = some (sample_renderer, .Failed) ∧
    sample_renderer.process_request (.AddNode "good") =
      some (sample_renderer.add_node "good" { serialize_result := some 7 },
        .AddNode ((sample_renderer.add_node "good" { serialize_result := some 7 }).nodes.length - 1)
          "good" 7) :=
  ⟨(claim_C3_add_node_atomic sample_renderer "missing").1 (by decide),
    (claim_C3_add_node_atomic sample_renderer "bad").2.1
      { serialize_result := none } (by decide) rfl,
    ((claim_C3_add_node_atomic sample_renderer "good").2.2
      { serialize_result := some 7 } 7 (by decide) rfl).1⟩

/-! Theorems about the beat scheduler (claims C2, C4 and C5). -/

lemma step_by_slots_flatMap (k : Nat) (l : List Bool) :
    step_by_slots k (l.flatMap fun item => item :: List.replicate (k - 1) false) = l := by
  induction l with
  | nil => rw [List.flatMap_nil, step_by_slots]
  | cons x xs ih =>
    rw [List.flatMap_cons, List.cons_append, step_by_slots]
    congr 1
    rw [List.drop_left' (List.length_replicate _ _)]
    exact ih

lemma decimate_interpolate_voice (voice : Voice) (k : Nat) :
    decimate_slots (interpolate_slots voice k) k = voice := by
  unfold decimate_slots interpolate_slots
  simp [step_by_slots_flatMap]

lemma voices_round_trip (vs : Voices) (h : vs.num_slots = 16) :
    (vs.set_num_slots 32).set_num_slots 16 = vs := by
  obtain ⟨ns, voices⟩ := vs
  simp only [Voices.num_slots] at h
  subst h
  unfold Voices.set_num_slots Voices.update_slots Voices.update_slots_interleave
    Voices.update_slots_decimate
  norm_num
  have hmap : ∀ v ∈ voices,
      ((fun x => decimate_slots x 2) ∘ fun x => interpolate_slots x 2) v = id v :=
    fun v _ => decimate_interpolate_voice v 2
  rw [List.map_congr_left hmap, List.map_id]

/-- Claim C5: decimating by `k` undoes interleaving by `k` on every
voice (for every `k ≥ 1`, the only factors the resize logic produces),
and at the scheduler level the rhythm change `{4,4} → {8,4} → {4,4}`
restores every voice's slot bitset. -/
theorem claim_C5_interleave_decimate_round_trip :
    (∀ (voice : Voice) (k : Nat), 1 ≤ k →
      decimate_slots (interpolate_slots voice k) k = voice) ∧
    (∀ dm : DrumMachine, dm.voices.num_slots = 16 →
      ((dm.set_rhythm ⟨8, 4⟩).set_rhythm ⟨4, 4⟩).voices = dm.voices) := by
  constructor
  · intro voice k _
    exact decimate_interpolate_voice voice k
  · intro dm h
    show ((dm.voices.set_num_slots (Rhythm.num_slots ⟨8, 4⟩)).set_num_slots
      (Rhythm.num_slots ⟨4, 4⟩)) = dm.voices
    have h8 : Rhythm.num_slots ⟨8, 4⟩ = 32 := rfl
    have h4 : Rhythm.num_slots ⟨4, 4⟩ = 16 := rfl
    rw [h8, h4, voices_round_trip dm.voices h]

/-- A concrete sequencer voice used to instantiate claim C5. -/
def sample_voice : Voice where
  name := "kick"
  instrument_index := some 0
  channel := 9
  note := 36
  velocity := 127
  slots := [true, false, false, true]

/-- Witness for claim C5: the round trip at factor 2 on the sample voice,
and the rhythm round trip on the freshly constructed scheduler. -/
theorem claim_C5_witness :
    decimate_slots (interpolate_slots sample_voice 2) 2 = sample_voice ∧
    ((DrumMachine.new.set_rhythm ⟨8, 4⟩).set_rhythm ⟨4, 4⟩).voices = DrumMachine.new.voices :=
  ⟨claim_C5_interleave_decimate_round_trip.1 sample_voice 2 (by decide),
    claim_C5_interleave_decimate_round_trip.2 DrumMachine.new (by decide)⟩

lemma advance_div_in_range (dm : DrumMachine) (hb : dm.current_beat < dm.rhythm.num_beats)
    (hd : dm.current_div < dm.rhythm.num_divs) :
    dm.advance_div.clock_in_range := by
  unfold DrumMachine.advance_div DrumMachine.advance_beat
  have hnb : 0 < dm.rhythm.num_beats := by omega
  have hnd : 0 < dm.rhythm.num_divs := by omega
  dsimp only
  split_ifs with h0
  · exact ⟨Nat.mod_lt _ hnb, Nat.mod_lt _ hnd⟩
  · exact ⟨hb, Nat.mod_lt _ hnd⟩

/-- Counterexample to claim C2 as stated: starting from the fresh
scheduler, `Reset` rewinds the clock to `(3, 3)`, and a `SetRhythm{2,4}`
then leaves `current_beat = 3 ≥ 2 = num_beats` — the invariant is
violated immediately after a `SetRhythm` that decreases `num_beats`,
because `set_rhythm` does not clamp the indices. -/
theorem claim_C2_counterexample :
    ((DrumMachine.new.step (.Reset 0)).step (.SetRhythm ⟨2, 4⟩)).current_beat = 3 ∧
    ((DrumMachine.new.step (.Reset 0)).step (.SetRhythm ⟨2, 4⟩)).rhythm.num_beats = 2 ∧
    ¬ ((DrumMachine.new.step (.Reset 0)).step (.SetRhythm ⟨2, 4⟩)).clock_in_range := by
  refine ⟨rfl, rfl, ?_⟩
  intro h
  obtain ⟨h1, h2⟩ := h
  revert h1
  decide

/-- Claim C2 as amended: every scheduler operation preserves the range
invariant, except that `SetRhythm` preserves it exactly when the new
rhythm still strictly bounds the current indices (a `SetRhythm` that
decreases a bound to at most the current index violates it, per the
counterexample). -/
theorem claim_C2_amended_step_in_range (dm : DrumMachine) (op : DMOp)
    (hinv : dm.clock_in_range)
    (hsr : ∀ rhythm, op = .SetRhythm rhythm →
      dm.current_beat < rhythm.num_beats ∧ dm.current_div < rhythm.num_divs) :
    (dm.step op).clock_in_range := by
  obtain ⟨hb, hd⟩ := hinv
  cases op with
  | Tick time =>
    show ((dm.tick time).1).clock_in_range
    unfold DrumMachine.tick
    dsimp only
    split_ifs with h1 h2
    · exact advance_div_in_range { dm with last_time := dm.last_time + dm.period } hb hd
    · exact ⟨hb, hd⟩
    · exact ⟨hb, hd⟩
  | SetRhythm rhythm => exact hsr rhythm rfl
  | SetTempoBpm tempo_bpm => exact ⟨hb, hd⟩
  | Reset time =>
    refine ⟨?_, ?_⟩
    · show dm.rhythm.num_beats - 1 < dm.rhythm.num_beats
      omega
    · show dm.rhythm.num_divs - 1 < dm.rhythm.num_divs
      omega
  | SetEnabled flag time =>
    show (dm.set_enabled flag time).clock_in_range
    unfold DrumMachine.set_enabled
    split_ifs with h1
    · refine ⟨?_, ?_⟩
      · show dm.rhythm.num_beats - 1 < dm.rhythm.num_beats
        omega
      · show dm.rhythm.num_divs - 1 < dm.rhythm.num_divs
        omega
    · exact ⟨hb, hd⟩

/-- Witness for the amended claim C2: the fresh scheduler satisfies the
invariant and still does after a tick. -/
theorem claim_C2_witness :
    DrumMachine.new.clock_in_range ∧ (DrumMachine.new.step (.Tick 1)).clock_in_range :=
  ⟨by decide,
    claim_C2_amended_step_in_range DrumMachine.new (.Tick 1) (by decide)
      (fun _ h => DMOp.noConfusion h)⟩

lemma tick_fires (dm : DrumMachine) (time : ℚ) (hen : dm.enabled = true)
    (hf : time - dm.last_time ≥ dm.period) :
    dm.tick time =
      (({ dm with last_time := dm.last_time + dm.period }).advance_div,
        some (dm.current_beat, dm.current_div)) := by
  unfold DrumMachine.tick
  simp [hen, hf]

lemma advance_div_wraps (dm : DrumMachine)
    (hb : dm.current_beat = dm.rhythm.num_beats - 1)
    (hd : dm.current_div = dm.rhythm.num_divs - 1)
    (hnb : 1 ≤ dm.rhythm.num_beats) (hnd : 1 ≤ dm.rhythm.num_divs) :
    dm.advance_div.current_beat = 0 ∧ dm.advance_div.current_div = 0 := by
  unfold DrumMachine.advance_div DrumMachine.advance_beat
  dsimp only
  have h1 : (dm.current_div + 1) % dm.rhythm.num_divs = 0 := by
    rw [hd]
    have h : dm.rhythm.num_divs - 1 + 1 = dm.rhythm.num_divs := by omega
    rw [h, Nat.mod_self]
  have h2 : (dm.current_beat + 1) % dm.rhythm.num_beats = 0 := by
    rw [hb]
    have h : dm.rhythm.num_beats - 1 + 1 = dm.rhythm.num_beats := by omega
    rw [h, Nat.mod_self]
  rw [if_pos h1]
  exact ⟨h2, h1⟩

/-- Counterexample to claim C4 as stated: after a `Reset` of the fresh
scheduler (rhythm `{4,4}`), the immediately following tick fires for
position `(3, 3)` — slot index 15, the last slot — and not for slot
`(0, 0)` as the claim asserts; `(0, 0)` is only the position the clock
advances to after that firing. -/
theorem claim_C4_counterexample :
    ((DrumMachine.new.step (.Reset 10)).tick 10).2 = some (3, 3) ∧
    DrumMachine.new.slot_index 3 3 = 15 ∧
    ((DrumMachine.new.step (.Reset 10)).tick 10).2 ≠ some (0, 0) := by
  have hfire : (10:ℚ) - (DrumMachine.new.step (.Reset 10)).last_time ≥
      (DrumMachine.new.step (.Reset 10)).period := by
    show (10:ℚ) - (10 - DrumMachine.new.period) ≥ DrumMachine.new.period
    linarith
  have htick := tick_fires (DrumMachine.new.step (.Reset 10)) 10 rfl hfire
  refine ⟨?_, rfl, ?_⟩
  · rw [htick]
    exact rfl
  · rw [htick]
    decide

/-- Claim C4 as amended: `Reset` sets `last_fire = now - period` and the
indices to `(num_beats - 1, num_divs - 1)`; any later tick fires
immediately, that firing is for `(num_beats - 1, num_divs - 1)` (the last
slot), and the clock then stands on `(0, 0)`, where the following firing
lands. -/
theorem claim_C4_amended_reset_then_tick (dm : DrumMachine) (t0 t1 : ℚ)
    (hen : dm.enabled = true) (hnb : 1 ≤ dm.rhythm.num_beats)
    (hnd : 1 ≤ dm.rhythm.num_divs) (ht : t0 ≤ t1) :
    (dm.reset t0).last_time = t0 - dm.period ∧
    (dm.reset t0).current_beat = dm.rhythm.num_beats - 1 ∧
    (dm.reset t0).current_div = dm.rhythm.num_divs - 1 ∧
    ((dm.reset t0).tick t1).2 = some (dm.rhythm.num_beats - 1, dm.rhythm.num_divs - 1) ∧
    ((dm.reset t0).tick t1).1.current_beat = 0 ∧
    ((dm.reset t0).tick t1).1.current_div = 0 := by
  have hfire : t1 - (dm.reset t0).last_time ≥ (dm.reset t0).period := by
    show t1 - (t0 - dm.period) ≥ dm.period
    linarith
  have htick := tick_fires (dm.reset t0) t1 hen hfire
  refine ⟨rfl, rfl, rfl, ?_, ?_, ?_⟩
  · rw [htick]
    exact rfl
  · rw [htick]
    exact (advance_div_wraps
      { dm.reset t0 with last_time := (dm.reset t0).last_time + (dm.reset t0).period }
      rfl rfl hnb hnd).1
  · rw [htick]
    exact (advance_div_wraps
      { dm.reset t0 with last_time := (dm.reset t0).last_time + (dm.reset t0).period }
      rfl rfl hnb hnd).2

/-- Witness for the amended claim C4 on the fresh scheduler, reset at
time 0 and ticked at time 1. -/
theorem claim_C4_witness :
    (DrumMachine.new.reset 0).last_time = 0 - DrumMachine.new.period ∧
    (DrumMachine.new.reset 0).current_beat = DrumMachine.new.rhythm.num_beats - 1 ∧
    (DrumMachine.new.reset 0).current_div = DrumMachine.new.rhythm.num_divs - 1 ∧
    ((DrumMachine.new.reset 0).tick 1).2 =
      some (DrumMachine.new.rhythm.num_beats - 1, DrumMachine.new.rhythm.num_divs - 1) ∧
    ((DrumMachine.new.reset 0).tick 1).1.current_beat = 0 ∧
    ((DrumMachine.new.reset 0).tick 1).1.current_div = 0 :=
  claim_C4_amended_reset_then_tick DrumMachine.new 0 1 rfl (by decide) (by decide)
    (by norm_num)

end AMI
